import Mathlib

/-!
Shallow embedding of the readycash Go client (src/client.go and the
supporting files) and proofs about its session-credential cache and
re-authentication protocol.

Modelling conventions:
* Go `time.Time` instants are modelled as `Int`; the zero value
  `time.Time{}` is the instant `0`, and `t1.After(t2)` is `t2 < t1`.
* Go strings are Lean `String`s; for the byte-level cache-key derivation
  (`makeAuthCacheKeys`) Go strings are byte lists (`List Nat`), since the
  derivation hex-encodes raw bytes.
* The HTTP transport is scripted: each authenticated operation consumes a
  list of `HttpResp` values, one per executed request, and the login
  endpoint's behaviour is a fixed `LoginHttp` value in the environment.
* Response-model JSON decoding (NewBalanceResponse, NewUssdTransactionResponse,
  NewWalletTransactions, ErrorResponse unmarshalling) is out of scope per the
  spec; a successful operation returns the raw body handed to the decoder, and
  `toErrorResponse data` is modelled as the error `ClientErr.remote data`
  carrying the raw body.
* `DesEncrypt` (the cipher primitive) is not part of the sources; it is an
  abstract environment function returning the ciphertext and a success flag,
  mirroring that `setPin` assigns the returned string before checking the
  error.
-/

namespace ReadyCash

/-- Session state `authParams` from src/client.go: bearer token, session id,
absolute expiry instant and the encrypted PIN. -/
structure AuthParams where
  authorization : String
  sessionID : String
  expiration : Int
  encodedPin : String
deriving Repr, DecidableEq

/-- Model of `authParams.hasExpired` (src/client.go lines 76-86): expired when
the expiry is the zero instant, when any of sessionID / authorization /
encodedPin is empty, or when `time.Now().After(expiration)`, i.e. strictly
after the expiry instant. -/
def AuthParams.hasExpired (p : AuthParams) (now : Int) : Bool :=
  if p.expiration = 0 then true
  else if p.sessionID = "" || p.authorization = "" || p.encodedPin = "" then true
  else decide (p.expiration < now)

/-- Model of `authParams.reset` (src/client.go lines 94-99): all four fields
cleared to their zero values. -/
def AuthParams.reset (_p : AuthParams) : AuthParams :=
  { authorization := "", sessionID := "", expiration := 0, encodedPin := "" }

/-- The zero-valued session state a freshly constructed client starts with. -/
def emptyAuthParams : AuthParams :=
  { authorization := "", sessionID := "", expiration := 0, encodedPin := "" }

/-- Account data supplied by the integrator (src/client.go lines 137-142);
`sessionLength` is the session lifetime in seconds. -/
structure Account where
  userName : String
  password : String
  pin : String
  sessionLength : Int
deriving Repr, DecidableEq

/-- Errors the client surfaces, one constructor per distinct error source in
src/client.go. `remote d` stands for `toErrorResponse(d)` with the raw body
`d` (`none` models a nil byte slice); structured JSON decoding of the error
body is out of scope. -/
inductive ClientErr where
  | accountCredentialsRequired
  | loginFailed (body : String)
  | loginTransport
  | cipherFailure
  | storageFailure (key : String)
  | emptyResponse
  | remote (body : Option String)
  | bankNotSupportedOnUSSD
  | transport
deriving Repr, DecidableEq

/-- Result of constructing a client: the stored account together with the
zero-valued in-memory session (`NewClient` leaves `access` at its zero value). -/
structure ClientInit where
  account : Account
  access : AuthParams
deriving Repr, DecidableEq

/-- Model of `NewClient` (src/client.go lines 153-178): fails with
`ErrAccountCredentialsRequired` when the account is nil or any of PIN,
user name, password is empty; otherwise returns the client with an empty
session. The constructor touches no transport (a nil HTTP client is merely
replaced by a default). -/
def NewClient (account : Option Account) : Except ClientErr ClientInit :=
  match account with
  | none => .error .accountCredentialsRequired
  | some a =>
    if a.pin = "" || a.userName = "" || a.password = "" then
      .error .accountCredentialsRequired
    else
      .ok { account := a, access := emptyAuthParams }

/-- Model of `successCode` (src/client.go lines 487-489). -/
def successCode (statusCode : Nat) : Bool :=
  statusCode == 200 || statusCode == 201 || statusCode == 202

/-- Keys of the `BanksSupportedOnUssd` map (src/unnamed/part_000); the map's
values are all empty strings and only the key set matters. -/
def BanksSupportedOnUssd : List String :=
  ["057", "058", "033", "039", "232", "215", "082", "070", "050", "035",
   "044", "011", "214"]

/-- Model of `IsBankSupportedOnUSSD` (src/unnamed/part_000 lines 22-29): the
Go loop variable `bankCode` shadows the parameter, so the comparison inside
the loop compares the loop variable with itself; the Lean lambda binder
shadows the parameter the same way. -/
def IsBankSupportedOnUSSD (bankCode : String) : Bool :=
  BanksSupportedOnUssd.any (fun bankCode => bankCode == bankCode)

/-- Result of a single Credential Store read: `ok v` is a successful read of
`v`, `err` covers both a miss and a read error (the Go code treats any
non-nil error identically, by skipping the field). -/
inductive ReadResult (α : Type) where
  | ok (v : α)
  | err
deriving Repr, DecidableEq

/-- Decide whether a read failed. -/
def ReadResult.isErr {α : Type} : ReadResult α → Bool
  | .ok _ => false
  | .err => true

/-- The Credential Store (`Storage` interface, src/client.go lines 130-135),
modelled by its observable read behaviour. -/
structure Storage where
  getString : String → ReadResult String
  getInt : String → ReadResult Int

/-- Effect of a successful `SetStringFor` on subsequent reads. -/
def Storage.setString (st : Storage) (k v : String) : Storage :=
  { st with getString := fun q => if q = k then .ok v else st.getString q }

/-- Effect of a successful `SetIntFor` on subsequent reads. -/
def Storage.setInt (st : Storage) (k : String) (v : Int) : Storage :=
  { st with getInt := fun q => if q = k then .ok v else st.getInt q }

/-- The four derived cache key names (`authCacheKey`, src/client.go
lines 62-67). -/
structure AuthCacheKey where
  authorizationKey : String
  sessionIDKey : String
  expirationKey : String
  encodedPinKey : String
deriving Repr, DecidableEq

/-- Behaviour of the login endpoint when `PostForm` is executed: either a
transport error or a response with status, body, and the `Authorization` and
`X-SessionID` response headers. -/
inductive LoginHttp where
  | transportError
  | response (status : Nat) (body : String)
      (authorizationHeader : String) (sessionIDHeader : String)
deriving Repr, DecidableEq

/-- Static environment of one client: derived keys, the current instant, the
login endpoint's scripted behaviour, the abstract cipher primitive (result
string and success flag, mirroring `DesEncrypt`), the account PIN and session
length, and the write-success oracle of the store. -/
structure Env where
  keys : AuthCacheKey
  now : Int
  loginHttp : LoginHttp
  desEncrypt : String → String → String × Bool
  accountPin : String
  sessionLengthSecs : Int
  writeOk : String → Bool

/-- Outcome of `login` / `ensureUserIsAuthenticated`: the error (if any), the
session state afterwards, the store afterwards, how many login HTTP posts
were made, and which store keys were written, in order. -/
structure LoginOutcome where
  result : Option ClientErr
  access : AuthParams
  store : Storage
  httpCalls : Nat
  writes : List String

/-- Hydration phase of `login` (src/client.go lines 408-434): each of the
four fields is read independently; a read error or an empty / non-positive
value leaves the field at its current in-memory value. -/
def hydrate (keys : AuthCacheKey) (st : Storage) (p : AuthParams) : AuthParams :=
  let p1 :=
    match st.getString keys.authorizationKey with
    | .ok v => if v ≠ "" then { p with authorization := v } else p
    | .err => p
  let p2 :=
    match st.getString keys.sessionIDKey with
    | .ok v => if v ≠ "" then { p1 with sessionID := v } else p1
    | .err => p1
  let p3 :=
    match st.getString keys.encodedPinKey with
    | .ok v => if v ≠ "" then { p2 with encodedPin := v } else p2
    | .err => p2
  let p4 :=
    match st.getInt keys.expirationKey with
    | .ok v => if 0 < v then { p3 with expiration := v } else p3
    | .err => p3
  p4

/-- Persistence phase of `login` (src/client.go lines 472-484): the four
fields are written in the fixed order token, session id, encrypted pin,
expiry; the first failing write aborts with its storage failure and the
remaining writes are not attempted. -/
def persistSession (env : Env) (st : Storage) (p : AuthParams) : LoginOutcome :=
  let k := env.keys
  if ¬ env.writeOk k.authorizationKey then
    { result := some (.storageFailure k.authorizationKey), access := p,
      store := st, httpCalls := 1, writes := [k.authorizationKey] }
  else
    let st1 := st.setString k.authorizationKey p.authorization
    if ¬ env.writeOk k.sessionIDKey then
      { result := some (.storageFailure k.sessionIDKey), access := p,
        store := st1, httpCalls := 1,
        writes := [k.authorizationKey, k.sessionIDKey] }
    else
      let st2 := st1.setString k.sessionIDKey p.sessionID
      if ¬ env.writeOk k.encodedPinKey then
        { result := some (.storageFailure k.encodedPinKey), access := p,
          store := st2, httpCalls := 1,
          writes := [k.authorizationKey, k.sessionIDKey, k.encodedPinKey] }
      else
        let st3 := st2.setString k.encodedPinKey p.encodedPin
        if ¬ env.writeOk k.expirationKey then
          { result := some (.storageFailure k.expirationKey), access := p,
            store := st3, httpCalls := 1,
            writes := [k.authorizationKey, k.sessionIDKey, k.encodedPinKey,
                       k.expirationKey] }
        else
          let st4 := st3.setInt k.expirationKey p.expiration
          { result := none, access := p, store := st4, httpCalls := 1,
            writes := [k.authorizationKey, k.sessionIDKey, k.encodedPinKey,
                       k.expirationKey] }

/-- Model of `login` (src/client.go lines 406-485): hydrate from the store;
if the hydrated session has not expired return at once (no login HTTP call,
no writes); otherwise post the login form, fail on transport error or
non-success status, extract the headers, encrypt the PIN under the new
session id (the field is assigned before the error is checked, as in
`setPin`), stamp the expiry `now + sessionLength`, and persist. -/
def login (env : Env) (st : Storage) (p : AuthParams) : LoginOutcome :=
  let q := hydrate env.keys st p
  if q.hasExpired env.now = false then
    { result := none, access := q, store := st, httpCalls := 0, writes := [] }
  else
    match env.loginHttp with
    | .transportError =>
      { result := some .loginTransport, access := q, store := st,
        httpCalls := 1, writes := [] }
    | .response status body authH sidH =>
      if ¬ successCode status then
        { result := some (.loginFailed body), access := q, store := st,
          httpCalls := 1, writes := [] }
      else
        let q1 := { q with authorization := authH, sessionID := sidH }
        let enc := env.desEncrypt env.accountPin q1.sessionID
        let q2 := { q1 with encodedPin := enc.1 }
        if ¬ enc.2 then
          { result := some .cipherFailure, access := q2, store := st,
            httpCalls := 1, writes := [] }
        else
          let q3 := { q2 with expiration := env.now + env.sessionLengthSecs }
          persistSession env st q3

/-- Model of `ensureUserIsAuthenticated` (src/client.go lines 508-515): the
store is consulted only when the in-memory session has expired. -/
def ensureUserIsAuthenticated (env : Env) (st : Storage) (p : AuthParams) :
    LoginOutcome :=
  if p.hasExpired env.now then login env st p
  else
    { result := none, access := p, store := st, httpCalls := 0, writes := [] }

/-- One scripted outcome of `doRequest` (src/client.go lines 574-588): a
transport error, or a response with its status code and body (`none` models a
nil body). -/
inductive HttpResp where
  | transportError
  | response (status : Nat) (data : Option String)
deriving Repr, DecidableEq

/-- Outcome of one logical authenticated operation: the result (a success
carries the raw body handed to the response decoder), the session state and
store afterwards, the number of authenticated request round-trips, and the
number of login HTTP posts made along the way. -/
structure OpOutcome where
  result : Except ClientErr (Option String)
  access : AuthParams
  store : Storage
  requests : Nat
  loginHttpCalls : Nat

/-- Outcome when `ensureUserIsAuthenticated` fails: its error is returned
before any request is issued. -/
def authFailedOutcome (a : LoginOutcome) (e : ClientErr) : OpOutcome :=
  { result := .error e, access := a.access, store := a.store, requests := 0,
    loginHttpCalls := a.httpCalls }

/-- Model of `BalanceEnquiry` (src/client.go lines 195-221): ensure
authentication, execute the request; on transport error fail; on HTTP 403
reset the session and re-invoke the whole operation on the remaining script
(the Go code calls `r.BalanceEnquiry()` recursively, with no retry bound); on
another non-success status fail with the parsed error body; otherwise hand
the body to the decoder. There is no nil-body check in this operation. -/
def BalanceEnquiry (env : Env) : Storage → AuthParams → List HttpResp → OpOutcome
  | st, p, [] =>
    let a := ensureUserIsAuthenticated env st p
    match a.result with
    | some e => authFailedOutcome a e
    | none =>
      { result := .error .transport, access := a.access, store := a.store,
        requests := 1, loginHttpCalls := a.httpCalls }
  | st, p, .transportError :: _ =>
    let a := ensureUserIsAuthenticated env st p
    match a.result with
    | some e => authFailedOutcome a e
    | none =>
      { result := .error .transport, access := a.access, store := a.store,
        requests := 1, loginHttpCalls := a.httpCalls }
  | st, p, .response status data :: rest =>
    let a := ensureUserIsAuthenticated env st p
    match a.result with
    | some e => authFailedOutcome a e
    | none =>
      if status = 403 then
        let o := BalanceEnquiry env a.store a.access.reset rest
        { o with requests := o.requests + 1,
                 loginHttpCalls := o.loginHttpCalls + a.httpCalls }
      else if ¬ successCode status then
        { result := .error (.remote data), access := a.access,
          store := a.store, requests := 1, loginHttpCalls := a.httpCalls }
      else
        { result := .ok data, access := a.access, store := a.store,
          requests := 1, loginHttpCalls := a.httpCalls }

/-- Model of `FetchTransaction` (src/client.go lines 353-396): like
`BalanceEnquiry` it resets and recursively re-invokes itself on HTTP 403,
but it checks for a nil body first (returning `ErrEmptyResponse` even when
the status is 403). Query-parameter construction is out of scope. -/
def FetchTransaction (env : Env) : Storage → AuthParams → List HttpResp → OpOutcome
  | st, p, [] =>
    let a := ensureUserIsAuthenticated env st p
    match a.result with
    | some e => authFailedOutcome a e
    | none =>
      { result := .error .transport, access := a.access, store := a.store,
        requests := 1, loginHttpCalls := a.httpCalls }
  | st, p, .transportError :: _ =>
    let a := ensureUserIsAuthenticated env st p
    match a.result with
    | some e => authFailedOutcome a e
    | none =>
      { result := .error .transport, access := a.access, store := a.store,
        requests := 1, loginHttpCalls := a.httpCalls }
  | st, p, .response status data :: rest =>
    let a := ensureUserIsAuthenticated env st p
    match a.result with
    | some e => authFailedOutcome a e
    | none =>
      match data with
      | none =>
        { result := .error .emptyResponse, access := a.access,
          store := a.store, requests := 1, loginHttpCalls := a.httpCalls }
      | some body =>
        if status = 403 then
          let o := FetchTransaction env a.store a.access.reset rest
          { o with requests := o.requests + 1,
                   loginHttpCalls := o.loginHttpCalls + a.httpCalls }
        else if ¬ successCode status then
          { result := .error (.remote (some body)), access := a.access,
            store := a.store, requests := 1, loginHttpCalls := a.httpCalls }
        else
          { result := .ok (some body), access := a.access, store := a.store,
            requests := 1, loginHttpCalls := a.httpCalls }

/-- Model of `GenerateUSSD` (src/client.go lines 224-297): the bank-support
gate runs before authentication; after the request, a nil body yields
`ErrEmptyResponse` and any non-success status (including 403) yields the
parsed error body — this operation has no reset-and-retry branch. -/
def GenerateUSSD (env : Env) (st : Storage) (p : AuthParams)
    (bankCode : String) (rs : List HttpResp) : OpOutcome :=
  if ¬ IsBankSupportedOnUSSD bankCode then
    { result := .error .bankNotSupportedOnUSSD, access := p, store := st,
      requests := 0, loginHttpCalls := 0 }
  else
    let a := ensureUserIsAuthenticated env st p
    match a.result with
    | some e => authFailedOutcome a e
    | none =>
      match rs with
      | [] =>
        { result := .error .transport, access := a.access, store := a.store,
          requests := 1, loginHttpCalls := a.httpCalls }
      | .transportError :: _ =>
        { result := .error .transport, access := a.access, store := a.store,
          requests := 1, loginHttpCalls := a.httpCalls }
      | .response status data :: _ =>
        match data with
        | none =>
          { result := .error .emptyResponse, access := a.access,
            store := a.store, requests := 1, loginHttpCalls := a.httpCalls }
        | some body =>
          if ¬ successCode status then
            { result := .error (.remote (some body)), access := a.access,
              store := a.store, requests := 1, loginHttpCalls := a.httpCalls }
          else
            { result := .ok (some body), access := a.access, store := a.store,
              requests := 1, loginHttpCalls := a.httpCalls }

/-- Model of `FetchUSSDTransaction` (src/client.go lines 300-350): after the
request, a nil body yields `ErrEmptyResponse` and any non-success status
(including 403) yields the parsed error body — this operation has no
reset-and-retry branch. -/
def FetchUSSDTransaction (env : Env) (st : Storage) (p : AuthParams)
    (rs : List HttpResp) : OpOutcome :=
  let a := ensureUserIsAuthenticated env st p
  match a.result with
  | some e => authFailedOutcome a e
  | none =>
    match rs with
    | [] =>
      { result := .error .transport, access := a.access, store := a.store,
        requests := 1, loginHttpCalls := a.httpCalls }
    | .transportError :: _ =>
      { result := .error .transport, access := a.access, store := a.store,
        requests := 1, loginHttpCalls := a.httpCalls }
    | .response status data :: _ =>
      match data with
      | none =>
        { result := .error .emptyResponse, access := a.access,
          store := a.store, requests := 1, loginHttpCalls := a.httpCalls }
      | some body =>
        if ¬ successCode status then
          { result := .error (.remote (some body)), access := a.access,
            store := a.store, requests := 1, loginHttpCalls := a.httpCalls }
        else
          { result := .ok (some body), access := a.access, store := a.store,
            requests := 1, loginHttpCalls := a.httpCalls }

/-- Bytes of an ASCII string (Go strings are byte slices; every string
involved in the key derivation is ASCII, where UTF-8 bytes and code points
coincide). -/
def strBytes (s : String) : List Nat :=
  s.data.map Char.toNat

/-- Bytes of the constant `baseLoginUrl` (src/client.go line 44). -/
def loginPathBytes : List Nat :=
  strBytes "/rc/rest/agent/login"

/-- The MD5 digest of the empty message. In Go, `md5.New().Sum(b)` appends
the digest of everything written to the hash so far — here nothing — to `b`;
so the key derivation appends this constant to the input instead of hashing
the input. -/
def md5EmptyDigest : List Nat :=
  [0xd4, 0x1d, 0x8c, 0xd9, 0x8f, 0x00, 0xb2, 0x04,
   0xe9, 0x80, 0x09, 0x98, 0xec, 0xf8, 0x42, 0x7e]

/-- Lower-case hex digit for a value below 16. -/
def hexDigit (n : Nat) : Char :=
  "0123456789abcdef".data.getD n '0'

/-- Two hex digits of one byte, as produced by the `%x` format verb. -/
def hexByte (b : Nat) : List Char :=
  [hexDigit (b / 16), hexDigit (b % 16)]

/-- Hex encoding of a byte list (`fmt.Sprintf` with the `%x` verb). -/
def hexEncode (bs : List Nat) : List Char :=
  bs.flatMap hexByte

/-- Base cache key of `makeAuthCacheKeys` (src/client.go lines 492-494):
the hex encoding of `baseURL ++ "/" ++ baseLoginUrl ++ "/" ++ userName`
followed by the empty-message MD5 digest appended by `md5.New().Sum`. -/
def baseCacheKey (baseURL userName : List Nat) : List Char :=
  hexEncode (baseURL ++ [47] ++ loginPathBytes ++ [47] ++ userName ++
    md5EmptyDigest)

/-- Model of `makeAuthCacheKeys` (src/client.go lines 491-506): the four
derived keys, each the base cache key followed by its fixed field tag. -/
def makeAuthCacheKeys (baseURL userName : List Nat) : List (List Char) :=
  let base := baseCacheKey baseURL userName
  [base ++ "-auth-token".data,
   base ++ "-session-id".data,
   base ++ "-auth-expiration".data,
   base ++ "-auth-encoded-pin".data]

/-- Decide whether an operation result is the bank-not-supported error. -/
def isBankUnsupportedErr : Except ClientErr (Option String) → Bool
  | .error .bankNotSupportedOnUSSD => true
  | _ => false


/-- Helper describing one field of the hydration outcome: an ok, non-empty
read replaces the current value, anything else keeps it. -/
def hydrStr (cur : String) : ReadResult String → String
  | .ok v => if v ≠ "" then v else cur
  | .err => cur

/-- Helper describing the expiry field of the hydration outcome: an ok,
positive read replaces the current value, anything else keeps it. -/
def hydrInt (cur : Int) : ReadResult Int → Int
  | .ok v => if 0 < v then v else cur
  | .err => cur

/-- Concrete account used by witness instances. -/
def sampleAccount : Account :=
  { userName := "sample", password := "password", pin := "1234",
    sessionLength := 3600 }

/-- Concrete store with no entries at all. -/
def emptyStore : Storage :=
  { getString := fun _ => .err, getInt := fun _ => .err }

/-- Concrete cache key set used by witness instances. -/
def sampleKeys : AuthCacheKey :=
  { authorizationKey := "ak", sessionIDKey := "sk", expirationKey := "ek",
    encodedPinKey := "pk" }

/-- Concrete store holding a complete, un-expired session. -/
def storeWithSession : Storage :=
  { getString := fun k =>
      if k = "ak" then .ok "tok"
      else if k = "sk" then .ok "sid"
      else if k = "pk" then .ok "pin"
      else .err,
    getInt := fun k => if k = "ek" then .ok 100 else .err }

/-- Concrete environment used by witness instances: instant 50, always
succeeding writes. -/
def sampleEnv : Env :=
  { keys := sampleKeys, now := 50, loginHttp := .transportError,
    desEncrypt := fun s _ => (s, true), accountPin := "1234",
    sessionLengthSecs := 3600, writeOk := fun _ => true }

/-- Concrete in-memory session that is valid at instant 50. -/
def validSession : AuthParams :=
  { authorization := "t", sessionID := "s", expiration := 100, encodedPin := "p" }

/-- Concrete environment whose store rejects the session-id write. -/
def failSidEnv : Env :=
  { keys := sampleKeys, now := 50,
    loginHttp := .response 200 "welcome" "Bearer T" "1234",
    desEncrypt := fun s k => (s ++ k, true), accountPin := "1234",
    sessionLengthSecs := 3600, writeOk := fun k => !(k == "sk") }

/-- Byte string that makes the slash-joined key-derivation input ambiguous:
it equals "/" ++ baseLoginUrl ++ "/". -/
def collideU : List Nat := strBytes "//rc/rest/agent/login/"

theorem login_result_not_bank (env : Env) (st : Storage) (p : AuthParams) :
    ∀ e, (login env st p).result = some e →
      isBankUnsupportedErr (.error e) = false := by
  intro e he
  unfold login persistSession at he
  dsimp only at he
  split at he
  · simp at he
  · split at he
    · simp at he; subst he; rfl
    · split at he
      · simp at he; subst he; rfl
      · split at he
        · simp at he; subst he; rfl
        · split at he
          · simp at he; subst he; rfl
          · split at he
            · simp at he; subst he; rfl
            · split at he
              · simp at he; subst he; rfl
              · split at he
                · simp at he; subst he; rfl
                · simp at he

theorem ensure_result_not_bank (env : Env) (st : Storage) (p : AuthParams) :
    ∀ e, (ensureUserIsAuthenticated env st p).result = some e →
      isBankUnsupportedErr (.error e) = false := by
  intro e he
  unfold ensureUserIsAuthenticated at he
  split at he
  · exact login_result_not_bank env st p e he
  · simp at he

theorem isBankSupported_true (s : String) : IsBankSupportedOnUSSD s = true := rfl

/-- C3 counterexample: the claimed validity predicate demands an expiry
strictly in the future, but at the boundary instant `now = expiration` the
code's `hasExpired` (built on the strict `time.Now().After`) still reports
the session valid: for the session `⟨"t", "s", 5, "p"⟩` at instant 5,
`hasExpired` is false although `5 < 5` fails, so the claimed iff does not
hold. -/
theorem session_validity_boundary_counterexample :
    ¬ ((AuthParams.hasExpired ⟨"t", "s", 5, "p"⟩ 5 = false) ↔
      ((5 : Int) ≠ 0 ∧ (5 : Int) < 5 ∧ ("t" : String) ≠ "" ∧
        ("s" : String) ≠ "" ∧ ("p" : String) ≠ "")) := by
  decide

/-- C3 amended: the session is valid (`hasExpired` is false) iff the expiry
is non-zero, the current instant is not strictly after the expiry (`now ≤
expiresAt`, so the boundary instant itself still counts as valid), and
token, session id and encrypted PIN are all non-empty; any single empty
field, zero expiry or past expiry makes the whole session invalid. -/
theorem session_validity_iff (p : AuthParams) (now : Int) :
    p.hasExpired now = false ↔
      (p.expiration ≠ 0 ∧ now ≤ p.expiration ∧ p.authorization ≠ "" ∧
        p.sessionID ≠ "" ∧ p.encodedPin ≠ "") := by
  unfold AuthParams.hasExpired
  split_ifs with h1 h2
  · simp_all
  · simp_all
    tauto
  · simp_all [not_or]

/-- C9: `NewClient` fails with `ErrAccountCredentialsRequired` exactly when
the account is absent or one of PIN, user name, password is empty, and
succeeds (with an empty in-memory session) when all three are non-empty.
Construction is pure in the model: no transport is involved at all. -/
theorem newClient_credentials_check (acc : Option Account) :
    (NewClient acc = .error .accountCredentialsRequired ↔
      (acc = none ∨ ∃ a, acc = some a ∧
        (a.pin = "" ∨ a.userName = "" ∨ a.password = ""))) ∧
    (∀ a, acc = some a → a.pin ≠ "" → a.userName ≠ "" → a.password ≠ "" →
      NewClient acc = .ok { account := a, access := emptyAuthParams }) := by
  constructor
  · cases acc with
    | none => simp [NewClient]
    | some a =>
      by_cases hc : a.pin = "" ∨ a.userName = "" ∨ a.password = ""
      · have hres : NewClient (some a) = .error .accountCredentialsRequired := by
          simp only [NewClient]
          rw [if_pos (by simp; tauto)]
        rw [hres]
        simp
        tauto
      · have hres : NewClient (some a) =
            .ok { account := a, access := emptyAuthParams } := by
          simp only [NewClient]
          rw [if_neg (by simp; tauto)]
        rw [hres]
        simp
        tauto
  · intro a ha hp hu hpw
    subst ha
    simp only [NewClient]
    rw [if_neg (by simp [hp, hu, hpw])]

/-- C9 witness: a fully populated account constructs successfully. -/
theorem newClient_credentials_check_witness :
    NewClient (some sampleAccount) =
      .ok { account := sampleAccount, access := emptyAuthParams } :=
  (newClient_credentials_check _).2 _ rfl (by decide) (by decide) (by decide)

/-- C10: the loop variable of `IsBankSupportedOnUSSD` shadows its parameter,
so the comparison inside the loop always succeeds over the non-empty
supported-banks map and the function returns true for every input string;
consequently `GenerateUSSD` never returns `ErrBankNotSupportedOnUSSD`,
whatever the environment, store, session, bank code or scripted responses. -/
theorem isBankSupported_always_true :
    (∀ bankCode : String, IsBankSupportedOnUSSD bankCode = true) ∧
    (∀ (env : Env) (st : Storage) (p : AuthParams) (bankCode : String)
      (rs : List HttpResp),
      isBankUnsupportedErr (GenerateUSSD env st p bankCode rs).result = false) := by
  refine ⟨isBankSupported_true, ?_⟩
  intro env st p bankCode rs
  unfold GenerateUSSD
  rw [if_neg (by simp [isBankSupported_true bankCode])]
  dsimp only
  cases he : (ensureUserIsAuthenticated env st p).result with
  | some e =>
    have := ensure_result_not_bank env st p e he
    simpa [authFailedOutcome] using this
  | none =>
    cases rs with
    | nil => rfl
    | cons r rest =>
      cases r with
      | transportError => rfl
      | response status data =>
        cases data with
        | none => rfl
        | some body =>
          dsimp only
          split
          · rfl
          · rfl

/-- C5: when the hydrated session is valid (in particular when the store
holds all four fields un-expired), `ensureUserIsAuthenticated` succeeds
without any login HTTP post, without writes, and leaves the store
untouched. -/
theorem ensureAuthenticated_cached_session_no_login (env : Env) (st : Storage)
    (p : AuthParams)
    (hr1 : (st.getString env.keys.authorizationKey).isErr = false)
    (hr2 : (st.getString env.keys.sessionIDKey).isErr = false)
    (hr3 : (st.getString env.keys.encodedPinKey).isErr = false)
    (hr4 : (st.getInt env.keys.expirationKey).isErr = false)
    (hvalid : (hydrate env.keys st p).hasExpired env.now = false) :
    (ensureUserIsAuthenticated env st p).result = none ∧
    (ensureUserIsAuthenticated env st p).httpCalls = 0 ∧
    (ensureUserIsAuthenticated env st p).writes = [] ∧
    (ensureUserIsAuthenticated env st p).store = st := by
  unfold ensureUserIsAuthenticated
  split
  · unfold login
    rw [if_pos hvalid]
    exact ⟨rfl, rfl, rfl, rfl⟩
  · exact ⟨rfl, rfl, rfl, rfl⟩

/-- C5 witness: a store holding a complete un-expired session satisfies the
hypotheses, and authentication then costs zero login calls. -/
theorem ensureAuthenticated_cached_session_no_login_witness :
    (ensureUserIsAuthenticated sampleEnv storeWithSession emptyAuthParams).result
        = none ∧
    (ensureUserIsAuthenticated sampleEnv storeWithSession
      emptyAuthParams).httpCalls = 0 ∧
    (ensureUserIsAuthenticated sampleEnv storeWithSession
      emptyAuthParams).writes = [] ∧
    (ensureUserIsAuthenticated sampleEnv storeWithSession emptyAuthParams).store
        = storeWithSession :=
  ensureAuthenticated_cached_session_no_login sampleEnv storeWithSession
    emptyAuthParams rfl rfl rfl rfl rfl

theorem hydrate_fieldwise (keys : AuthCacheKey) (st : Storage) (p : AuthParams) :
    hydrate keys st p =
      { authorization := hydrStr p.authorization (st.getString keys.authorizationKey),
        sessionID := hydrStr p.sessionID (st.getString keys.sessionIDKey),
        expiration := hydrInt p.expiration (st.getInt keys.expirationKey),
        encodedPin := hydrStr p.encodedPin (st.getString keys.encodedPinKey) } := by
  unfold hydrate
  cases hA : st.getString keys.authorizationKey <;>
  cases hS : st.getString keys.sessionIDKey <;>
  cases hP : st.getString keys.encodedPinKey <;>
  cases hE : st.getInt keys.expirationKey <;>
    simp [hydrStr, hydrInt] <;> split_ifs <;> rfl

/-- C6: a failed read of any individual field during hydration keeps that
field at its current in-memory value, and the remaining fields are still
hydrated independently (each field of the result depends only on its own
read); no read failure is ever surfaced — `hydrate` is total and returns a
session, never an error. -/
theorem hydrate_read_failure_nonfatal (keys : AuthCacheKey) (st : Storage)
    (p : AuthParams) :
    (st.getString keys.authorizationKey = .err →
      (hydrate keys st p).authorization = p.authorization) ∧
    (st.getString keys.sessionIDKey = .err →
      (hydrate keys st p).sessionID = p.sessionID) ∧
    (st.getString keys.encodedPinKey = .err →
      (hydrate keys st p).encodedPin = p.encodedPin) ∧
    (st.getInt keys.expirationKey = .err →
      (hydrate keys st p).expiration = p.expiration) ∧
    hydrate keys st p =
      { authorization := hydrStr p.authorization (st.getString keys.authorizationKey),
        sessionID := hydrStr p.sessionID (st.getString keys.sessionIDKey),
        expiration := hydrInt p.expiration (st.getInt keys.expirationKey),
        encodedPin := hydrStr p.encodedPin (st.getString keys.encodedPinKey) } := by
  refine ⟨?_, ?_, ?_, ?_, hydrate_fieldwise keys st p⟩ <;>
    intro h <;> rw [hydrate_fieldwise keys st p] <;> simp [hydrStr, hydrInt, h]

/-- C6 witness: against a store with no entries, every field survives
hydration unchanged. -/
theorem hydrate_read_failure_nonfatal_witness :
    (hydrate sampleKeys emptyStore ⟨"t0", "s0", 77, "p0"⟩).authorization = "t0" ∧
    (hydrate sampleKeys emptyStore ⟨"t0", "s0", 77, "p0"⟩).sessionID = "s0" ∧
    (hydrate sampleKeys emptyStore ⟨"t0", "s0", 77, "p0"⟩).encodedPin = "p0" ∧
    (hydrate sampleKeys emptyStore ⟨"t0", "s0", 77, "p0"⟩).expiration = 77 := by
  have h := hydrate_read_failure_nonfatal sampleKeys emptyStore ⟨"t0", "s0", 77, "p0"⟩
  exact ⟨h.1 rfl, h.2.1 rfl, h.2.2.1 rfl, h.2.2.2.1 rfl⟩


/-- C7: once login reaches the persistence phase (hydrated session invalid,
successful login response, successful PIN encryption), the four store writes
are attempted in the fixed order token, session id, encrypted pin, expiry;
the first failing write makes login return that storage failure and the
later writes are not attempted (integer entries are untouched in every
failing case, and string entries other than the already-written ones keep
their prior read behaviour). -/
theorem login_persist_order_shortcircuit (env : Env) (st : Storage)
    (p : AuthParams) (status : Nat) (body aH sH : String)
    (hinv : (hydrate env.keys st p).hasExpired env.now = true)
    (hhttp : env.loginHttp = .response status body aH sH)
    (hstatus : successCode status = true)
    (henc : (env.desEncrypt env.accountPin sH).2 = true) :
    (env.writeOk env.keys.authorizationKey = false →
      (login env st p).result = some (.storageFailure env.keys.authorizationKey) ∧
      (login env st p).writes = [env.keys.authorizationKey] ∧
      (∀ q, (login env st p).store.getString q = st.getString q) ∧
      (∀ q, (login env st p).store.getInt q = st.getInt q)) ∧
    (env.writeOk env.keys.authorizationKey = true →
      env.writeOk env.keys.sessionIDKey = false →
      (login env st p).result = some (.storageFailure env.keys.sessionIDKey) ∧
      (login env st p).writes = [env.keys.authorizationKey, env.keys.sessionIDKey] ∧
      (∀ q, q ≠ env.keys.authorizationKey →
        (login env st p).store.getString q = st.getString q) ∧
      (∀ q, (login env st p).store.getInt q = st.getInt q)) ∧
    (env.writeOk env.keys.authorizationKey = true →
      env.writeOk env.keys.sessionIDKey = true →
      env.writeOk env.keys.encodedPinKey = false →
      (login env st p).result = some (.storageFailure env.keys.encodedPinKey) ∧
      (login env st p).writes =
        [env.keys.authorizationKey, env.keys.sessionIDKey, env.keys.encodedPinKey] ∧
      (∀ q, q ≠ env.keys.authorizationKey → q ≠ env.keys.sessionIDKey →
        (login env st p).store.getString q = st.getString q) ∧
      (∀ q, (login env st p).store.getInt q = st.getInt q)) ∧
    (env.writeOk env.keys.authorizationKey = true →
      env.writeOk env.keys.sessionIDKey = true →
      env.writeOk env.keys.encodedPinKey = true →
      env.writeOk env.keys.expirationKey = false →
      (login env st p).result = some (.storageFailure env.keys.expirationKey) ∧
      (login env st p).writes =
        [env.keys.authorizationKey, env.keys.sessionIDKey, env.keys.encodedPinKey,
         env.keys.expirationKey] ∧
      (∀ q, (login env st p).store.getInt q = st.getInt q)) ∧
    (env.writeOk env.keys.authorizationKey = true →
      env.writeOk env.keys.sessionIDKey = true →
      env.writeOk env.keys.encodedPinKey = true →
      env.writeOk env.keys.expirationKey = true →
      (login env st p).result = none ∧
      (login env st p).writes =
        [env.keys.authorizationKey, env.keys.sessionIDKey, env.keys.encodedPinKey,
         env.keys.expirationKey]) := by
  have hL : login env st p = persistSession env st
      { hydrate env.keys st p with
          authorization := aH, sessionID := sH,
          encodedPin := (env.desEncrypt env.accountPin sH).1,
          expiration := env.now + env.sessionLengthSecs } := by
    unfold login
    rw [if_neg (by simp [hinv]), hhttp]
    dsimp only
    rw [if_neg (by simp [hstatus]), if_neg (by simp [henc])]
  rw [hL]
  unfold persistSession
  refine ⟨?_, ?_, ?_, ?_, ?_⟩
  · intro w1
    rw [if_pos (by simp [w1])]
    exact ⟨rfl, rfl, fun q => rfl, fun q => rfl⟩
  · intro w1 w2
    rw [if_neg (by simp [w1]), if_pos (by simp [w2])]
    refine ⟨rfl, rfl, ?_, fun q => rfl⟩
    intro q hq
    simp [Storage.setString, hq]
  · intro w1 w2 w3
    rw [if_neg (by simp [w1]), if_neg (by simp [w2]), if_pos (by simp [w3])]
    refine ⟨rfl, rfl, ?_, fun q => rfl⟩
    intro q hq1 hq2
    simp [Storage.setString, hq1, hq2]
  · intro w1 w2 w3 w4
    rw [if_neg (by simp [w1]), if_neg (by simp [w2]), if_neg (by simp [w3]),
      if_pos (by simp [w4])]
    exact ⟨rfl, rfl, fun q => rfl⟩
  · intro w1 w2 w3 w4
    rw [if_neg (by simp [w1]), if_neg (by simp [w2]), if_neg (by simp [w3]),
      if_neg (by simp [w4])]
    exact ⟨rfl, rfl⟩

/-- C7 witness: with a store that rejects the session-id write, login fails
with that key's storage failure after writing exactly token and session id. -/
theorem login_persist_order_shortcircuit_witness :
    (login failSidEnv emptyStore emptyAuthParams).result =
      some (.storageFailure "sk") ∧
    (login failSidEnv emptyStore emptyAuthParams).writes = ["ak", "sk"] := by
  have h := (login_persist_order_shortcircuit failSidEnv emptyStore
    emptyAuthParams 200 "welcome" "Bearer T" "1234" rfl rfl rfl rfl).2.1 rfl rfl
  exact ⟨h.1, h.2.1⟩

/-- C8 counterexample: with a valid in-memory session, a balance enquiry
executes its request and succeeds while the session state stays exactly the
in-memory value, even though the store holds a different complete session
that hydration would have installed — so the session is NOT hydrated from
the store at the start of every authenticated operation. -/
theorem no_hydration_when_valid_counterexample :
    (BalanceEnquiry sampleEnv storeWithSession validSession
      [.response 200 (some "balance")]).result = .ok (some "balance") ∧
    (BalanceEnquiry sampleEnv storeWithSession validSession
      [.response 200 (some "balance")]).access = validSession ∧
    hydrate sampleEnv.keys storeWithSession validSession ≠ validSession := by
  refine ⟨rfl, rfl, ?_⟩
  decide

/-- C8 amended: the session is hydrated from the store at the start of an
authenticated operation only when the in-memory session is expired or
invalid — `ensureUserIsAuthenticated` then delegates to `login`, whose first
step is hydration; when the in-memory session is valid the operation runs
without consulting the store at all. -/
theorem hydration_only_when_expired (env : Env) (st : Storage) (p : AuthParams) :
    (p.hasExpired env.now = false →
      ensureUserIsAuthenticated env st p =
        { result := none, access := p, store := st, httpCalls := 0,
          writes := [] }) ∧
    (p.hasExpired env.now = true →
      ensureUserIsAuthenticated env st p = login env st p) := by
  constructor <;> intro h <;> simp [ensureUserIsAuthenticated, h]

/-- C8 witness: a valid in-memory session short-circuits authentication to a
no-op. -/
theorem hydration_only_when_expired_witness :
    ensureUserIsAuthenticated sampleEnv emptyStore validSession =
      { result := none, access := validSession, store := emptyStore,
        httpCalls := 0, writes := [] } :=
  (hydration_only_when_expired sampleEnv emptyStore validSession).1 rfl

/-- C1 counterexample: `FetchUSSDTransaction` receives HTTP 403 and neither
resets the session nor re-invokes itself: it returns the parsed error body
after a single round trip with the session state untouched — refuting the
claim that every authenticated operation resets and retries on 403. -/
theorem fetchUSSD_403_no_reset_no_retry_counterexample :
    (FetchUSSDTransaction sampleEnv emptyStore validSession
      [.response 403 (some "denied")]).result =
        .error (.remote (some "denied")) ∧
    (FetchUSSDTransaction sampleEnv emptyStore validSession
      [.response 403 (some "denied")]).access = validSession ∧
    (FetchUSSDTransaction sampleEnv emptyStore validSession
      [.response 403 (some "denied")]).requests = 1 := by
  exact ⟨rfl, rfl, rfl⟩

/-- C1 amended: on HTTP 403, only `BalanceEnquiry` and `FetchTransaction`
reset the session state and re-invoke the entire operation (and the
re-invocation is an unbounded recursive restart, not a one-shot retry;
`FetchTransaction` moreover requires a non-nil body to reach its 403
branch); `GenerateUSSD` and `FetchUSSDTransaction` treat 403 as an ordinary
non-success status and return the parsed error body after one round trip
without resetting the session. -/
theorem forbidden_handling_amended (env : Env) (st : Storage) (p : AuthParams)
    (d : Option String) (body bankCode : String) (rest : List HttpResp)
    (h : (ensureUserIsAuthenticated env st p).result = none) :
    (BalanceEnquiry env st p (.response 403 d :: rest) =
      (let a := ensureUserIsAuthenticated env st p
       let o := BalanceEnquiry env a.store a.access.reset rest
       { o with requests := o.requests + 1,
                loginHttpCalls := o.loginHttpCalls + a.httpCalls })) ∧
    (FetchTransaction env st p (.response 403 (some body) :: rest) =
      (let a := ensureUserIsAuthenticated env st p
       let o := FetchTransaction env a.store a.access.reset rest
       { o with requests := o.requests + 1,
                loginHttpCalls := o.loginHttpCalls + a.httpCalls })) ∧
    ((GenerateUSSD env st p bankCode (.response 403 (some body) :: rest)).result =
        .error (.remote (some body)) ∧
      (GenerateUSSD env st p bankCode (.response 403 (some body) :: rest)).access =
        (ensureUserIsAuthenticated env st p).access ∧
      (GenerateUSSD env st p bankCode
        (.response 403 (some body) :: rest)).requests = 1) ∧
    ((FetchUSSDTransaction env st p (.response 403 (some body) :: rest)).result =
        .error (.remote (some body)) ∧
      (FetchUSSDTransaction env st p (.response 403 (some body) :: rest)).access =
        (ensureUserIsAuthenticated env st p).access ∧
      (FetchUSSDTransaction env st p
        (.response 403 (some body) :: rest)).requests = 1) := by
  refine ⟨?_, ?_, ?_, ?_⟩
  · simp only [BalanceEnquiry]
    rw [h]
    simp
  · simp only [FetchTransaction]
    rw [h]
    simp
  · unfold GenerateUSSD
    rw [if_neg (by simp [isBankSupported_true])]
    dsimp only
    rw [h]
    exact ⟨rfl, rfl, rfl⟩
  · unfold FetchUSSDTransaction
    dsimp only
    rw [h]
    exact ⟨rfl, rfl, rfl⟩

/-- C1 amended witness: a concrete `GenerateUSSD` call hitting 403 performs
exactly one round trip. -/
theorem forbidden_handling_amended_witness :
    (GenerateUSSD sampleEnv emptyStore validSession "057"
      [.response 403 (some "no")]).requests = 1 :=
  ((forbidden_handling_amended sampleEnv emptyStore validSession (some "no")
    "no" "057" [] rfl).2.2.1).2.2

/-- C2 counterexample: with a store that keeps serving an un-expired session,
a balance enquiry that receives 403, then 403 again, then 200 succeeds on
its third round trip — the second 403 is not surfaced as a failure and the
logical call performs three request round-trips, refuting the at-most-two
bound. -/
theorem balanceEnquiry_three_roundtrips_counterexample :
    (BalanceEnquiry sampleEnv storeWithSession emptyAuthParams
      [.response 403 (some "forbidden"), .response 403 (some "forbidden"),
       .response 200 (some "balance")]).result = .ok (some "balance") ∧
    (BalanceEnquiry sampleEnv storeWithSession emptyAuthParams
      [.response 403 (some "forbidden"), .response 403 (some "forbidden"),
       .response 200 (some "balance")]).requests = 3 := by
  exact ⟨rfl, rfl⟩

theorem balanceEnquiry_retry_aux (env : Env) (st : Storage) (n : Nat)
    (b e : String)
    (h2 : (ensureUserIsAuthenticated env st emptyAuthParams).result = none)
    (h2s : (ensureUserIsAuthenticated env st emptyAuthParams).store = st) :
    ∀ p : AuthParams,
      (ensureUserIsAuthenticated env st p).result = none →
      (ensureUserIsAuthenticated env st p).store = st →
      (BalanceEnquiry env st p (List.replicate n (.response 403 (some e)) ++
        [.response 200 (some b)])).result = .ok (some b) ∧
      (BalanceEnquiry env st p (List.replicate n (.response 403 (some e)) ++
        [.response 200 (some b)])).requests = n + 1 := by
  have hreset : ∀ x : AuthParams, x.reset = emptyAuthParams := fun _ => rfl
  induction n with
  | zero =>
    intro p hp hps
    simp only [List.replicate, List.nil_append]
    simp only [BalanceEnquiry]
    rw [hp]
    dsimp only
    rw [if_neg (by decide), if_neg (by decide)]
    exact ⟨rfl, rfl⟩
  | succ n ih =>
    intro p hp hps
    simp only [List.replicate_succ, List.cons_append]
    simp only [BalanceEnquiry]
    rw [hp]
    dsimp only
    rw [if_pos trivial, hps, hreset]
    have h := ih emptyAuthParams h2 h2s
    exact ⟨h.1, by simp [h.2]⟩

theorem fetchTransaction_retry_aux (env : Env) (st : Storage) (n : Nat)
    (b e : String)
    (h2 : (ensureUserIsAuthenticated env st emptyAuthParams).result = none)
    (h2s : (ensureUserIsAuthenticated env st emptyAuthParams).store = st) :
    ∀ p : AuthParams,
      (ensureUserIsAuthenticated env st p).result = none →
      (ensureUserIsAuthenticated env st p).store = st →
      (FetchTransaction env st p (List.replicate n (.response 403 (some e)) ++
        [.response 200 (some b)])).result = .ok (some b) ∧
      (FetchTransaction env st p (List.replicate n (.response 403 (some e)) ++
        [.response 200 (some b)])).requests = n + 1 := by
  have hreset : ∀ x : AuthParams, x.reset = emptyAuthParams := fun _ => rfl
  induction n with
  | zero =>
    intro p hp hps
    simp only [List.replicate, List.nil_append]
    simp only [FetchTransaction]
    rw [hp]
    dsimp only
    rw [if_neg (by decide), if_neg (by decide)]
    exact ⟨rfl, rfl⟩
  | succ n ih =>
    intro p hp hps
    simp only [List.replicate_succ, List.cons_append]
    simp only [FetchTransaction]
    rw [hp]
    dsimp only
    rw [if_pos trivial, hps, hreset]
    have h := ih emptyAuthParams h2 h2s
    exact ⟨h.1, by simp [h.2]⟩

/-- C2 amended: the 403 handling of both `BalanceEnquiry` and
`FetchTransaction` is an unbounded recursive restart, not a one-shot retry:
whenever re-authentication keeps succeeding without touching the store, n
consecutive 403 responses (with non-nil bodies) followed by one success
produce, in either operation, a successful result after exactly n + 1
request round-trips, for every n. -/
theorem retry_unbounded_roundtrips (env : Env) (st : Storage) (n : Nat)
    (b e : String)
    (h2 : (ensureUserIsAuthenticated env st emptyAuthParams).result = none)
    (h2s : (ensureUserIsAuthenticated env st emptyAuthParams).store = st) :
    ∀ p : AuthParams,
      (ensureUserIsAuthenticated env st p).result = none →
      (ensureUserIsAuthenticated env st p).store = st →
      ((BalanceEnquiry env st p (List.replicate n (.response 403 (some e)) ++
          [.response 200 (some b)])).result = .ok (some b) ∧
        (BalanceEnquiry env st p (List.replicate n (.response 403 (some e)) ++
          [.response 200 (some b)])).requests = n + 1) ∧
      ((FetchTransaction env st p (List.replicate n (.response 403 (some e)) ++
          [.response 200 (some b)])).result = .ok (some b) ∧
        (FetchTransaction env st p (List.replicate n (.response 403 (some e)) ++
          [.response 200 (some b)])).requests = n + 1) := by
  intro p hp hps
  exact ⟨balanceEnquiry_retry_aux env st n b e h2 h2s p hp hps,
    fetchTransaction_retry_aux env st n b e h2 h2s p hp hps⟩

/-- C2 amended witness: in both operations, two 403 responses then a success
give three round trips and a successful result. -/
theorem retry_unbounded_roundtrips_witness :
    ((BalanceEnquiry sampleEnv storeWithSession emptyAuthParams
      (List.replicate 2 (.response 403 (some "x")) ++
        [.response 200 (some "done")])).result = .ok (some "done") ∧
    (BalanceEnquiry sampleEnv storeWithSession emptyAuthParams
      (List.replicate 2 (.response 403 (some "x")) ++
        [.response 200 (some "done")])).requests = 3) ∧
    ((FetchTransaction sampleEnv storeWithSession emptyAuthParams
      (List.replicate 2 (.response 403 (some "x")) ++
        [.response 200 (some "done")])).result = .ok (some "done") ∧
    (FetchTransaction sampleEnv storeWithSession emptyAuthParams
      (List.replicate 2 (.response 403 (some "x")) ++
        [.response 200 (some "done")])).requests = 3) :=
  retry_unbounded_roundtrips sampleEnv storeWithSession 2 "done" "x"
    rfl rfl emptyAuthParams rfl rfl


/-- C4 counterexample: the key derivation joins `baseURL`, the login path and
`userName` with "/" and then merely hex-encodes the bytes (Go's
`md5.New().Sum(input)` appends the digest of the empty message to `input`
instead of hashing it), so the slash-joined input is ambiguous: the account
`(baseURL = "", userName = "//rc/rest/agent/login/")` and the account
`(baseURL = "//rc/rest/agent/login/", userName = "")` derive identical key
sets although the triples differ. -/
theorem cacheKeys_collision_counterexample :
    makeAuthCacheKeys [] collideU = makeAuthCacheKeys collideU [] ∧
    ([] : List Nat) ≠ collideU := by
  decide

theorem hexDigit_fin : ∀ a b : Fin 16, hexDigit a.val = hexDigit b.val → a = b := by
  decide

theorem hexDigit_inj {a b : Nat} (ha : a < 16) (hb : b < 16)
    (h : hexDigit a = hexDigit b) : a = b := by
  have := hexDigit_fin ⟨a, ha⟩ ⟨b, hb⟩ h
  exact congrArg Fin.val this

theorem hexEncode_inj : ∀ (xs ys : List Nat), (∀ x ∈ xs, x < 256) →
    (∀ y ∈ ys, y < 256) → hexEncode xs = hexEncode ys → xs = ys
  | [], [], _, _, _ => rfl
  | [], _ :: _, _, _, h => by simp [hexEncode, hexByte] at h
  | _ :: _, [], _, _, h => by simp [hexEncode, hexByte] at h
  | x :: xs, y :: ys, hx, hy, h => by
    simp only [hexEncode, List.flatMap_cons, hexByte, List.cons_append,
      List.nil_append, List.cons.injEq] at h
    obtain ⟨e1, e2, etail⟩ := h
    have hxx : x < 256 := hx x (by simp)
    have hyy : y < 256 := hy y (by simp)
    have d1 : x / 16 = y / 16 := hexDigit_inj (by omega) (by omega) e1
    have d2 : x % 16 = y % 16 := hexDigit_inj (by omega) (by omega) e2
    have hxy : x = y := by omega
    subst hxy
    have tail := hexEncode_inj xs ys (fun a ha => hx a (by simp [ha]))
      (fun a ha => hy a (by simp [ha])) etail
    rw [tail]

theorem drop_len_append {α : Type} (k t : List α) :
    (k ++ t).drop k.length = t := by
  induction k with
  | nil => rfl
  | cons a k ih => simpa using ih

theorem cross_suffix_absurd {X Y s t : List Char} (h : X ++ s = Y ++ t)
    (h1 : s.drop (s.length - t.length) ≠ t)
    (h2 : t.drop (t.length - s.length) ≠ s) : False := by
  rcases List.append_eq_append_iff.mp h with ⟨k, _, hs⟩ | ⟨k, _, ht⟩
  · apply h1
    rw [hs]
    simp only [List.length_append, Nat.add_sub_cancel]
    exact drop_len_append k t
  · apply h2
    rw [ht]
    simp only [List.length_append, Nat.add_sub_cancel]
    exact drop_len_append k s

theorem append_cons_eq_of_not_mem {α : Type} (c : α) :
    ∀ (x1 x2 z1 z2 : List α), c ∉ x1 → c ∉ x2 →
      x1 ++ c :: z1 = x2 ++ c :: z2 → x1 = x2 ∧ z1 = z2
  | [], [], z1, z2, _, _, h => by
    simp only [List.nil_append, List.cons.injEq] at h
    exact ⟨rfl, h.2⟩
  | [], a :: x2, z1, z2, _, h2, h => by
    simp only [List.nil_append, List.cons_append, List.cons.injEq] at h
    exact absurd (h.1 ▸ List.mem_cons_self a x2) h2
  | a :: x1, [], z1, z2, h1, _, h => by
    simp only [List.nil_append, List.cons_append, List.cons.injEq] at h
    exact absurd (h.1.symm ▸ List.mem_cons_self a x1) h1
  | a :: x1, b :: x2, z1, z2, h1, h2, h => by
    simp only [List.cons_append, List.cons.injEq] at h
    have ih := append_cons_eq_of_not_mem c x1 x2 z1 z2
      (fun hm => h1 (List.mem_cons_of_mem a hm))
      (fun hm => h2 (List.mem_cons_of_mem b hm)) h.2
    exact ⟨by rw [h.1, ih.1], ih.2⟩

theorem loginPathBytes_bound : ∀ x ∈ loginPathBytes, x < 256 := by decide

theorem md5EmptyDigest_bound : ∀ x ∈ md5EmptyDigest, x < 256 := by decide

theorem baseCacheKey_inj (b1 u1 b2 u2 : List Nat)
    (hb1 : ∀ x ∈ b1, x < 256) (hu1 : ∀ x ∈ u1, x < 256)
    (hb2 : ∀ x ∈ b2, x < 256) (hu2 : ∀ x ∈ u2, x < 256)
    (hs1 : 47 ∉ u1) (hs2 : 47 ∉ u2)
    (h : baseCacheKey b1 u1 = baseCacheKey b2 u2) : b1 = b2 ∧ u1 = u2 := by
  unfold baseCacheKey at h
  have hone : ∀ (b u : List Nat), (∀ x ∈ b, x < 256) → (∀ x ∈ u, x < 256) →
      ∀ x ∈ b ++ [47] ++ loginPathBytes ++ [47] ++ u ++ md5EmptyDigest,
        x < 256 := by
    intro b u hb hu x hx
    simp only [List.mem_append, List.mem_singleton] at hx
    rcases hx with ((((hx | hx) | hx) | hx) | hx) | hx
    · exact hb x hx
    · omega
    · exact loginPathBytes_bound x hx
    · omega
    · exact hu x hx
    · exact md5EmptyDigest_bound x hx
  have heq := hexEncode_inj _ _ (hone b1 u1 hb1 hu1) (hone b2 u2 hb2 hu2) h
  have heq2 := List.append_cancel_right heq
  have hrev := congrArg List.reverse heq2
  simp only [List.reverse_append, List.reverse_cons, List.reverse_nil,
    List.nil_append, List.append_assoc, List.singleton_append] at hrev
  have hmain := append_cons_eq_of_not_mem 47 u1.reverse u2.reverse _ _
    (by simpa [List.mem_reverse] using hs1)
    (by simpa [List.mem_reverse] using hs2) hrev
  have hu : u1 = u2 := List.reverse_injective hmain.1
  have htail := List.append_cancel_left hmain.2
  simp only [List.cons.injEq, true_and] at htail
  have hb : b1 = b2 := List.reverse_injective htail
  exact ⟨hb, hu⟩

/-- C4 amended: the derivation is deterministic and, provided the user names
contain no "/" byte (and all inputs are byte strings), the four derived key
sets of two accounts only share a key when the accounts coincide; without
that restriction the slash-joined input is ambiguous and distinct triples
can derive identical key sets (see the counterexample). -/
theorem cacheKeys_injective_slashfree (b1 u1 b2 u2 : List Nat)
    (hb1 : ∀ x ∈ b1, x < 256) (hu1 : ∀ x ∈ u1, x < 256)
    (hb2 : ∀ x ∈ b2, x < 256) (hu2 : ∀ x ∈ u2, x < 256)
    (hs1 : 47 ∉ u1) (hs2 : 47 ∉ u2) (k : List Char)
    (hk1 : k ∈ makeAuthCacheKeys b1 u1) (hk2 : k ∈ makeAuthCacheKeys b2 u2) :
    b1 = b2 ∧ u1 = u2 := by
  simp only [makeAuthCacheKeys, List.mem_cons, List.not_mem_nil, or_false] at hk1 hk2
  rcases hk1 with h1 | h1 | h1 | h1 <;> rcases hk2 with h2 | h2 | h2 | h2 <;>
    first
      | exact baseCacheKey_inj b1 u1 b2 u2 hb1 hu1 hb2 hu2 hs1 hs2
          (List.append_cancel_right (h1.symm.trans h2))
      | exact (cross_suffix_absurd (h1.symm.trans h2)
          (by decide) (by decide)).elim

/-- C4 amended witness: a shared key between equal slash-free accounts is
consistent with the injectivity statement. -/
theorem cacheKeys_injective_slashfree_witness :
    ([97] : List Nat) = [97] ∧ ([117] : List Nat) = [117] :=
  cacheKeys_injective_slashfree [97] [117] [97] [117]
    (by decide) (by decide) (by decide) (by decide) (by decide) (by decide)
    (baseCacheKey [97] [117] ++ "-auth-token".data)
    (by simp [makeAuthCacheKeys]) (by simp [makeAuthCacheKeys])

end ReadyCash
